import Mathlib

/-!
Verification of the alert-dispatcher core: a shallow embedding of the Go
sources (SQS poller, SNS/CloudWatch adapter, Grafana webhook adapters,
priority classification, channel routing, Slack message formatting, the
interactive-callback verifier, and the Slack notifier), followed by
theorems settling the specification claims.

Modelling conventions:
* Go strings are Lean `String`s (`String.data` gives the character list);
  Go `len` on a string (a byte count) is modelled by `goLen` below.
* Go `map[string]string` values are association lists with the zero-value
  (`""`) read semantics of Go map indexing (`mapGet`); the list order
  stands for Go's (unspecified) map iteration order.
* JSON documents decoded by `encoding/json` are modelled by the `Json`
  inductive.  JSON numbers are modelled as integers: no claim depends on
  fractional numeric values, and every formatter below renders integral
  float64 values exactly as the integer rendering used here.
* Raw-string JSON parsing is abstracted as a `String → Option Json`
  function passed to the adapters; per-struct unmarshalling (absent field
  becomes the zero value, wrong-typed field is an error, Go's
  case-insensitive field-name match) is modelled explicitly.
* Fallible Go functions returning `(T, error)` become `Except String T`.
-/

/-- Go `strings.Contains` on character lists: `pat` occurs contiguously in `s`. -/
def containsSub : List Char → List Char → Bool
  | s@([]), pat => pat.isPrefixOf s
  | s@(_ :: rest), pat => pat.isPrefixOf s || containsSub rest pat

/-- Go `strings.Contains s substr`. -/
def goContains (s substr : String) : Bool := containsSub s.data substr.data

/-- Go `strings.ToLower` (ASCII; all source keywords are ASCII). -/
def toLowerStr (s : String) : String := String.mk (s.data.map Char.toLower)

/-- Go `strings.ToUpper` (ASCII). -/
def toUpperStr (s : String) : String := String.mk (s.data.map Char.toUpper)

/-- ASCII whitespace as trimmed by Go `strings.TrimSpace` on ASCII text. -/
def goIsSpace (c : Char) : Bool :=
  c == ' ' || c == '\t' || c == '\n' || c == '\r' || c == (Char.ofNat 11) || c == (Char.ofNat 12)

/-- Go `strings.TrimSpace`. -/
def goTrimSpace (s : String) : String :=
  String.mk (((s.data.dropWhile goIsSpace).reverse.dropWhile goIsSpace).reverse)

/-- Go `len` of a string: its UTF-8 byte count. -/
def goLen (s : String) : Nat := s.data.foldl (fun n c => n + c.utf8Size) 0

/-- Go map read `m[k]` on a `map[string]string`: zero value `""` when absent. -/
def mapGet (m : List (String × String)) (k : String) : String :=
  match m.find? (fun p => p.1 == k) with
  | some p => p.2
  | none => ""

/-- Go comma-ok map read `v, ok := m[k]` on a `map[string]string`. -/
def mapGetOpt (m : List (String × String)) (k : String) : Option String :=
  (m.find? (fun p => p.1 == k)).map (fun p => p.2)

/-- Decimal digit test. -/
def isDigitCh (c : Char) : Bool := '0' ≤ c && c ≤ '9'

/-- Value of a list of decimal digits. -/
def digitsToNat (l : List Char) : Nat := l.foldl (fun n c => n * 10 + (c.toNat - '0'.toNat)) 0

/-- Go `strconv.ParseInt(s, 10, 64)`: optional sign, at least one digit,
64-bit range check; `none` models a non-nil error. -/
def goParseInt64 (s : String) : Option Int :=
  let digits : List Char → Option Int := fun l =>
    if l ≠ [] && l.all isDigitCh then some (digitsToNat l : Int) else none
  match s.data with
  | '+' :: rest => (digits rest).bind fun n => if n ≤ 2 ^ 63 - 1 then some n else none
  | '-' :: rest => (digits rest).bind fun n => if n ≤ 2 ^ 63 then some (-n) else none
  | l => (digits l).bind fun n => if n ≤ 2 ^ 63 - 1 then some n else none

/-- JSON values as decoded by Go `encoding/json` (numbers modelled as integers). -/
inductive Json where
  | null
  | bool (b : Bool)
  | num (n : Int)
  | str (s : String)
  | arr (elems : List Json)
  | obj (fields : List (String × Json))

/-- Go runtime map read on a decoded `map[string]interface\x7b\x7d`: exact key. -/
def jmapGet (fields : List (String × Json)) (key : String) : Option Json :=
  (fields.find? (fun p => p.1 == key)).map (fun p => p.2)

/-- Field lookup as `encoding/json` matches JSON keys to struct fields:
exact match preferred, else case-insensitive. -/
def jField (fields : List (String × Json)) (key : String) : Option Json :=
  match fields.find? (fun p => p.1 == key) with
  | some p => some p.2
  | none => (fields.find? (fun p => toLowerStr p.1 == toLowerStr key)).map (fun p => p.2)

/-- Decode a Go `string` struct field: absent or null is the zero value. -/
def decodeStrField (fields : List (String × Json)) (key : String) : Except String String :=
  match jField fields key with
  | none => Except.ok ""
  | some Json.null => Except.ok ""
  | some (Json.str s) => Except.ok s
  | some _ => Except.error ("cannot unmarshal field " ++ key)

/-- Decode a Go `*string` struct field. -/
def decodeOptStrField (fields : List (String × Json)) (key : String) : Except String (Option String) :=
  match jField fields key with
  | none => Except.ok none
  | some Json.null => Except.ok none
  | some (Json.str s) => Except.ok (some s)
  | some _ => Except.error ("cannot unmarshal field " ++ key)

/-- Decode a Go numeric struct field (int / int64 / float64, modelled as `Int`). -/
def decodeNumField (fields : List (String × Json)) (key : String) : Except String Int :=
  match jField fields key with
  | none => Except.ok 0
  | some Json.null => Except.ok 0
  | some (Json.num n) => Except.ok n
  | some _ => Except.error ("cannot unmarshal field " ++ key)

/-- Decode one entry of a `map[string]string`. -/
def decodeStrEntry (p : String × Json) : Except String (String × String) :=
  match p.2 with
  | Json.str s => Except.ok (p.1, s)
  | Json.null => Except.ok (p.1, "")
  | _ => Except.error ("cannot unmarshal map value for key " ++ p.1)

/-- Decode a Go `map[string]string` struct field. -/
def decodeStrMapField (fields : List (String × Json)) (key : String) :
    Except String (List (String × String)) :=
  match jField fields key with
  | none => Except.ok []
  | some Json.null => Except.ok []
  | some (Json.obj kvs) => kvs.mapM decodeStrEntry
  | some _ => Except.error ("cannot unmarshal field " ++ key)

/-- One CloudWatch trigger dimension. -/
structure CWDimension where
  name : String
  value : String
deriving DecidableEq

/-- The nested `Trigger` struct of a CloudWatch alarm payload. -/
structure CWTrigger where
  MetricName : String
  Namespace : String
  Statistic : String
  ComparisonOperator : String
  Threshold : Int
  Period : Int
  EvaluationPeriods : Int
  Dimensions : List CWDimension
deriving DecidableEq

/-- Zero value of `CWTrigger`. -/
def CWTrigger.zero : CWTrigger := ⟨"", "", "", "", 0, 0, 0, []⟩

/-- The CloudWatch alarm payload struct. -/
structure CloudWatchAlarm where
  AlarmName : String
  AlarmDescription : Option String
  AWSAccountId : String
  NewStateValue : String
  OldStateValue : String
  NewStateReason : String
  StateChangeTime : String
  Region : String
  AlarmArn : String
  Trigger : CWTrigger
deriving DecidableEq

/-- Zero value of `CloudWatchAlarm`. -/
def CloudWatchAlarm.zero : CloudWatchAlarm :=
  ⟨"", none, "", "", "", "", "", "", "", CWTrigger.zero⟩

/-- Decode one element of the `Dimensions` array. -/
def decodeCWDimension (j : Json) : Except String CWDimension :=
  match j with
  | Json.null => Except.ok ⟨"", ""⟩
  | Json.obj f => do
    let n ← decodeStrField f "name"
    let v ← decodeStrField f "value"
    Except.ok ⟨n, v⟩
  | _ => Except.error "cannot unmarshal Dimensions element"

/-- Decode the `Trigger` struct. -/
def decodeCWTrigger (j : Json) : Except String CWTrigger :=
  match j with
  | Json.null => Except.ok CWTrigger.zero
  | Json.obj f => do
    let metric ← decodeStrField f "MetricName"
    let ns ← decodeStrField f "Namespace"
    let stat ← decodeStrField f "Statistic"
    let comp ← decodeStrField f "ComparisonOperator"
    let thr ← decodeNumField f "Threshold"
    let per ← decodeNumField f "Period"
    let evals ← decodeNumField f "EvaluationPeriods"
    let dims ←
      match jField f "Dimensions" with
      | none => Except.ok []
      | some Json.null => Except.ok []
      | some (Json.arr es) => es.mapM decodeCWDimension
      | some _ => Except.error "cannot unmarshal field Dimensions"
    Except.ok ⟨metric, ns, stat, comp, thr, per, evals, dims⟩
  | _ => Except.error "cannot unmarshal Trigger"

/-- Go `json.Unmarshal` into `CloudWatchAlarm`. -/
def unmarshalCloudWatchAlarm (j : Json) : Except String CloudWatchAlarm :=
  match j with
  | Json.null => Except.ok CloudWatchAlarm.zero
  | Json.obj f => do
    let name ← decodeStrField f "AlarmName"
    let desc ← decodeOptStrField f "AlarmDescription"
    let acct ← decodeStrField f "AWSAccountId"
    let newState ← decodeStrField f "NewStateValue"
    let oldState ← decodeStrField f "OldStateValue"
    let reason ← decodeStrField f "NewStateReason"
    let changeTime ← decodeStrField f "StateChangeTime"
    let region ← decodeStrField f "Region"
    let arn ← decodeStrField f "AlarmArn"
    let trigger ←
      match jField f "Trigger" with
      | none => Except.ok CWTrigger.zero
      | some jt => decodeCWTrigger jt
    Except.ok ⟨name, desc, acct, newState, oldState, reason, changeTime, region, arn, trigger⟩
  | _ => Except.error "cannot unmarshal CloudWatchAlarm"

/-- The SNS envelope struct read by the SQS adapters. -/
structure SNSEnvelope where
  Message : String
  Subject : String
deriving DecidableEq

/-- Go `json.Unmarshal` into the SNS envelope struct. -/
def unmarshalSNSEnvelope (j : Json) : Except String SNSEnvelope :=
  match j with
  | Json.null => Except.ok ⟨"", ""⟩
  | Json.obj f => do
    let m ← decodeStrField f "Message"
    let s ← decodeStrField f "Subject"
    Except.ok ⟨m, s⟩
  | _ => Except.error "cannot unmarshal envelope"

/-- The outbound alert descriptor produced by the adapters. -/
structure AlertMessage where
  Message : String
  Priority : String
  Channel : String
deriving DecidableEq

/-- `determinePriority` from the SQS adapter: keyword heuristics over the
alarm name (lower-cased) and the trigger namespace (case-sensitive). -/
def determinePriority (alarm : CloudWatchAlarm) : String :=
  let alarmName := toLowerStr alarm.AlarmName
  let ns := alarm.Trigger.Namespace
  if goContains alarmName "prod" || goContains alarmName "production" then "P0"
  else if goContains ns "RDS" || goContains ns "DynamoDB" then "P0"
  else if goContains ns "ELB" || goContains ns "5xx" then "P0"
  else if goContains alarmName "cpu" || goContains alarmName "memory" then "P0"
  else if goContains alarmName "redis" || goContains alarmName "elasticache" then "P1"
  else if goContains alarmName "qa" || goContains alarmName "staging" then "P2"
  else "P2"

/-- Go `%.1f` applied to an integral float64 value (modelled as `Int`). -/
def formatF1 (n : Int) : String := toString n ++ ".0"

/-- Two-digit zero-padded decimal. -/
def pad2 (n : Nat) : String := if n < 10 then "0" ++ toString n else toString n

/-- Four-digit zero-padded decimal (Go layout element `2006`). -/
def pad4 (n : Nat) : String :=
  if n < 10 then "000" ++ toString n
  else if n < 100 then "00" ++ toString n
  else if n < 1000 then "0" ++ toString n
  else toString n

/-- Leap-year test (Gregorian), for `time.Parse` day-of-month validation. -/
def isLeapYear (y : Nat) : Bool := (y % 4 == 0 && y % 100 != 0) || y % 400 == 0

/-- Days in a month, for `time.Parse` day-of-month validation. -/
def daysInMonth (y m : Nat) : Nat :=
  if m == 2 then (if isLeapYear y then 29 else 28)
  else if m == 4 || m == 6 || m == 9 || m == 11 then 30 else 31

/-- Go `time.Parse` with layout `2006-01-02T15:04:05.000+0000` (the final
`+0000` is a literal chunk in that layout): returns the date-time fields,
or `none` on any shape or range error. -/
def parseCWTime (s : String) : Option (Nat × Nat × Nat × Nat × Nat × Nat) :=
  match s.data with
  | [y1, y2, y3, y4, '-', m1, m2, '-', d1, d2, 'T', h1, h2, ':', n1, n2, ':',
     s1, s2, '.', f1, f2, f3, '+', '0', '0', '0', '0'] =>
    if ([y1, y2, y3, y4, m1, m2, d1, d2, h1, h2, n1, n2, s1, s2, f1, f2, f3].all isDigitCh) then
      let y := digitsToNat [y1, y2, y3, y4]
      let mo := digitsToNat [m1, m2]
      let d := digitsToNat [d1, d2]
      let h := digitsToNat [h1, h2]
      let mi := digitsToNat [n1, n2]
      let se := digitsToNat [s1, s2]
      if 1 ≤ mo && mo ≤ 12 && 1 ≤ d && d ≤ daysInMonth y mo && h ≤ 23 && mi ≤ 59 && se ≤ 59 then
        some (y, mo, d, h, mi, se)
      else none
    else none
  | _ => none

/-- `formatTimestamp` from the SQS adapter: re-render a CloudWatch
timestamp as `2006-01-02 15:04:05 UTC`, passing the input through
unchanged when parsing fails. -/
def formatTimestamp (timeStr : String) : String :=
  match parseCWTime timeStr with
  | none => timeStr
  | some (y, mo, d, h, mi, se) =>
    pad4 y ++ "-" ++ pad2 mo ++ "-" ++ pad2 d ++ " " ++ pad2 h ++ ":" ++ pad2 mi ++ ":" ++
      pad2 se ++ " UTC"

/-- `formatDimensionsIndented` from the SQS adapter. -/
def formatDimensionsIndented (dims : List CWDimension) : String :=
  if dims.isEmpty then "   → None"
  else String.intercalate "\n" (dims.map (fun d => "   → " ++ d.name ++ ": " ++ d.value))

/-- `formatSlackMessage` from the SQS adapter. -/
def formatSlackMessage (alarm : CloudWatchAlarm) : String :=
  let emoji :=
    match alarm.NewStateValue with
    | "ALARM" => "🚨"
    | "OK" => "✅"
    | "INSUFFICIENT_DATA" => "⚠️"
    | _ => "📊"
  let stateColor :=
    match alarm.NewStateValue with
    | "ALARM" => "`🔴 ALARM`"
    | "OK" => "`🟢 OK`"
    | "INSUFFICIENT_DATA" => "`🟡 INSUFFICIENT_DATA`"
    | _ => "`" ++ alarm.NewStateValue ++ "`"
  let oldStateColor :=
    match alarm.OldStateValue with
    | "ALARM" => "`🔴 ALARM`"
    | "OK" => "`🟢 OK`"
    | "INSUFFICIENT_DATA" => "`🟡 INSUFFICIENT_DATA`"
    | _ => "`" ++ alarm.OldStateValue ++ "`"
  emoji ++ " *CloudWatch Alarm: " ++ alarm.AlarmName ++ "*" ++
    "\n• *From:* " ++ oldStateColor ++ " → *To:* " ++ stateColor ++
    "\n• *Metric:* `" ++ alarm.Trigger.Namespace ++ "/" ++ alarm.Trigger.MetricName ++ "`" ++
    "\n• *Threshold:* `" ++ alarm.Trigger.ComparisonOperator ++ " " ++
      formatF1 alarm.Trigger.Threshold ++ "`" ++
    "\n• *Period:* `" ++ toString alarm.Trigger.Period ++ "s over " ++
      toString alarm.Trigger.EvaluationPeriods ++ " evaluations`" ++
    "\n• *Dimensions:*\n" ++ formatDimensionsIndented alarm.Trigger.Dimensions ++
    "\n• *Region:* `" ++ alarm.Region ++ "`" ++
    "\n• *Reason:* " ++ alarm.NewStateReason ++
    "\n• *Time:* `" ++ formatTimestamp alarm.StateChangeTime ++ "`"

/-- `AdaptSQSMessageWithRouting` from the SQS adapter: unwrap the SNS
envelope, decode the CloudWatch alarm, route by explicit alarm mapping
first, then by priority, then the default channel. -/
def AdaptSQSMessageWithRouting (parseJson : String → Option Json) (body : String)
    (channels alarmChannels : List (String × String)) : Except String AlertMessage :=
  match parseJson body with
  | none => Except.error "unmarshal body"
  | some j =>
    match unmarshalSNSEnvelope j with
    | Except.error e => Except.error e
    | Except.ok envelope =>
      match parseJson envelope.Message with
      | none => Except.error "unmarshal alarm"
      | some jm =>
        match unmarshalCloudWatchAlarm jm with
        | Except.error e => Except.error e
        | Except.ok alarm =>
          let channel0 := mapGet alarmChannels alarm.AlarmName
          let channel :=
            if channel0 == "" then
              let c := mapGet channels (determinePriority alarm)
              if c == "" then mapGet channels "default" else c
            else channel0
          Except.ok
            { Message := formatSlackMessage alarm
              Priority := determinePriority alarm
              Channel := channel }

/-- One evaluated metric match of a legacy Grafana alert. -/
structure EvalMatch where
  Value : Int
  Metric : String
  Tags : List (String × String)
deriving DecidableEq

/-- The legacy Grafana webhook struct. -/
structure GrafanaWebhook where
  DashboardID : Int
  EvalMatches : List EvalMatch
  ImageURL : String
  Message : String
  OrgID : Int
  PanelID : Int
  RuleID : Int
  RuleName : String
  RuleURL : String
  State : String
  Tags : List (String × String)
  Title : String
deriving DecidableEq

/-- Zero value of `GrafanaWebhook`. -/
def GrafanaWebhook.zero : GrafanaWebhook := ⟨0, [], "", "", 0, 0, 0, "", "", "", [], ""⟩

/-- Decode one element of `evalMatches`. -/
def decodeEvalMatch (j : Json) : Except String EvalMatch :=
  match j with
  | Json.null => Except.ok ⟨0, "", []⟩
  | Json.obj f => do
    let v ← decodeNumField f "value"
    let m ← decodeStrField f "metric"
    let t ← decodeStrMapField f "tags"
    Except.ok ⟨v, m, t⟩
  | _ => Except.error "cannot unmarshal evalMatches element"

/-- Go `json.Unmarshal` into the legacy `GrafanaWebhook` struct. -/
def unmarshalGrafanaWebhook (j : Json) : Except String GrafanaWebhook :=
  match j with
  | Json.null => Except.ok GrafanaWebhook.zero
  | Json.obj f => do
    let dash ← decodeNumField f "dashboardId"
    let evals ←
      match jField f "evalMatches" with
      | none => Except.ok []
      | some Json.null => Except.ok []
      | some (Json.arr es) => es.mapM decodeEvalMatch
      | some _ => Except.error "cannot unmarshal field evalMatches"
    let img ← decodeStrField f "imageUrl"
    let msg ← decodeStrField f "message"
    let org ← decodeNumField f "orgId"
    let panel ← decodeNumField f "panelId"
    let rid ← decodeNumField f "ruleId"
    let rname ← decodeStrField f "ruleName"
    let rurl ← decodeStrField f "ruleUrl"
    let st ← decodeStrField f "state"
    let tags ← decodeStrMapField f "tags"
    let title ← decodeStrField f "title"
    Except.ok ⟨dash, evals, img, msg, org, panel, rid, rname, rurl, st, tags, title⟩
  | _ => Except.error "cannot unmarshal GrafanaWebhook"

/-- The heuristic fallback of `determineGrafanaPriority` (the code after
its channel-tag switch). -/
def grafanaHeuristicPriority (alert : GrafanaWebhook) : String :=
  let ruleName := toLowerStr alert.RuleName
  let title := toLowerStr alert.Title
  if goContains ruleName "critical" || goContains title "critical" then "P0"
  else if goContains ruleName "prod" || goContains title "prod" then "P0"
  else if goContains ruleName "down" || goContains title "down" then "P0"
  else if goContains ruleName "high" || goContains title "high" then "P1"
  else if goContains ruleName "error" || goContains title "error" then "P1"
  else if goContains ruleName "warning" || goContains title "warning" then "P2"
  else if goContains ruleName "staging" || goContains title "staging" then "P2"
  else "P2"

/-- `determineGrafanaPriority` from the SQS adapter: an explicit
`channel` tag value of `P0`/`P1`/`P2` (upper-cased) wins; any other tag
value, or no tag, falls through to the keyword heuristics. -/
def determineGrafanaPriority (alert : GrafanaWebhook) : String :=
  match mapGetOpt alert.Tags "channel" with
  | some channelTag =>
    match toUpperStr channelTag with
    | "P0" => "P0"
    | "P1" => "P1"
    | "P2" => "P2"
    | _ => grafanaHeuristicPriority alert
  | none => grafanaHeuristicPriority alert

/-- Go `%.2f`/`%.0f` value rendering in the legacy formatter: with
integral values (our number model) the integer branch is always taken. -/
def formatMatchValue (v : Int) : String := toString v

/-- `formatGrafanaSlackMessage` from the SQS adapter. -/
def formatGrafanaSlackMessage (alert : GrafanaWebhook) : String :=
  let emoji :=
    match toUpperStr alert.State with
    | "ALERTING" => "🚨"
    | "OK" => "✅"
    | "NO_DATA" => "⚠️"
    | "PENDING" => "⏳"
    | _ => "📊"
  let stateColor :=
    match toUpperStr alert.State with
    | "ALERTING" => "`🔴 ALERTING`"
    | "OK" => "`🟢 OK`"
    | "NO_DATA" => "`🟡 NO_DATA`"
    | "PENDING" => "`🟡 PENDING`"
    | _ => "`" ++ alert.State ++ "`"
  let message := emoji ++ " *Grafana Alert: " ++ alert.Title ++ "*" ++
    "\n• *State:* " ++ stateColor
  let message :=
    if alert.RuleName != "" && alert.RuleName != alert.Title then
      message ++ "\n• *Rule:* `" ++ alert.RuleName ++ "`"
    else message
  let message :=
    if alert.Message != "" then message ++ "\n• *Description:* " ++ alert.Message
    else message
  let message :=
    if alert.EvalMatches.length > 0 then
      alert.EvalMatches.foldl
        (fun acc m =>
          let acc := acc ++ "\n   → `" ++ m.Metric ++ "`: **" ++ formatMatchValue m.Value ++ "**"
          let importantTags :=
            (m.Tags.filter (fun p => p.1 != "__name__" && p.1 != "job" && p.1 != "instance")).map
              (fun p => "`" ++ p.1 ++ "=" ++ p.2 ++ "`")
          if importantTags.length > 0 then
            acc ++ " (" ++ String.intercalate ", " importantTags ++ ")"
          else acc)
        (message ++ "\n• *Metrics:*")
    else message
  let message :=
    if alert.Tags.length > 0 then
      let importantTags :=
        (alert.Tags.filter (fun p => p.1 != "channel" && p.2 != "")).map
          (fun p => "   → `" ++ p.1 ++ "`: " ++ p.2)
      if importantTags.length > 0 then
        message ++ "\n• *Labels:*\n" ++ String.intercalate "\n" importantTags
      else message
    else message
  if alert.RuleURL != "" then
    message ++ "\n• *Dashboard:* <" ++ alert.RuleURL ++ "|View Alert Rule>"
  else message

/-- The anonymous Alertmanager webhook struct of the modern adapter:
`alerts` is a list of decoded `map[string]interface\x7b\x7d` objects. -/
structure AMWebhook where
  Alerts : List (List (String × Json))
  CommonLabels : List (String × String)
  Status : String
  Title : String
  Message : String

/-- Zero value of `AMWebhook`. -/
def AMWebhook.zero : AMWebhook := ⟨[], [], "", "", ""⟩

/-- Decode one element of `alerts` (a JSON object into `map[string]interface\x7b\x7d`). -/
def decodeAlertEntry (j : Json) : Except String (List (String × Json)) :=
  match j with
  | Json.null => Except.ok []
  | Json.obj f => Except.ok f
  | _ => Except.error "cannot unmarshal alerts element"

/-- Go `json.Unmarshal` into the anonymous Alertmanager webhook struct. -/
def unmarshalAMWebhook (j : Json) : Except String AMWebhook :=
  match j with
  | Json.null => Except.ok AMWebhook.zero
  | Json.obj f => do
    let alerts ←
      match jField f "alerts" with
      | none => Except.ok []
      | some Json.null => Except.ok []
      | some (Json.arr es) => es.mapM decodeAlertEntry
      | some _ => Except.error "cannot unmarshal field alerts"
    let commonLabels ← decodeStrMapField f "commonLabels"
    let status ← decodeStrField f "status"
    let title ← decodeStrField f "title"
    let msg ← decodeStrField f "message"
    Except.ok ⟨alerts, commonLabels, status, title, msg⟩
  | _ => Except.error "cannot unmarshal AMWebhook"

/-- The channel tag extracted by the modern adapter: `commonLabels`
first, else the first alert's `labels.channel` when it is a string. -/
def amChannelTag (w : AMWebhook) : String :=
  let channelTag := mapGet w.CommonLabels "channel"
  if channelTag == "" then
    match w.Alerts with
    | [] => ""
    | a :: _ =>
      match jmapGet a "labels" with
      | some (Json.obj labels) =>
        match jmapGet labels "channel" with
        | some (Json.str s) => s
        | _ => ""
      | _ => ""
  else channelTag

/-- No-data indicator test on an alert name (lower-cased substring match). -/
def noDataName (s : String) : Bool :=
  goContains (toLowerStr s) "nodata" || goContains (toLowerStr s) "no data" ||
    goContains (toLowerStr s) "data source"

/-- No-data indicator test on an alert description. -/
def noDataDesc (s : String) : Bool :=
  goContains (toLowerStr s) "no data" || goContains (toLowerStr s) "nodata" ||
    goContains (toLowerStr s) "data source"

/-- One iteration of the modern adapter's no-data loop: the alert's
`labels.alertname` or `annotations.description` carries an indicator. -/
def alertNoData (a : List (String × Json)) : Bool :=
  (match jmapGet a "labels" with
   | some (Json.obj labels) =>
     match jmapGet labels "alertname" with
     | some (Json.str s) => noDataName s
     | _ => false
   | _ => false) ||
  (match jmapGet a "annotations" with
   | some (Json.obj annotations) =>
     match jmapGet annotations "description" with
     | some (Json.str s) => noDataDesc s
     | _ => false
   | _ => false)

/-- The guard-and-loop of the modern adapter's no-data check: status is
FIRING (upper-cased), the alert list is non-empty, and some alert
carries a no-data indicator. -/
def amNoDataFired (w : AMWebhook) : Bool :=
  toUpperStr w.Status == "FIRING" && decide (0 < w.Alerts.length) && w.Alerts.any alertNoData

/-- The priority computed by the modern adapter: forced `P1` on a firing
no-data alert, else the channel tag folded into P0/P1/P2 (default P2). -/
def amPriority (w : AMWebhook) : String :=
  if amNoDataFired w then
    "P1"
  else
    let channelTag := amChannelTag w
    if channelTag != "" then
      match toUpperStr channelTag with
      | "P0" => "P0"
      | "P1" => "P1"
      | "P2" => "P2"
      | _ => "P2"
    else "P2"

/-- The alert name read from the first alert's labels when `commonLabels`
has none (shared by the enhanced and basic modern formatters). -/
def amAlertname (w : AMWebhook) : String :=
  let alertname := mapGet w.CommonLabels "alertname"
  if alertname == "" then
    match w.Alerts with
    | [] => alertname
    | a :: _ =>
      match jmapGet a "labels" with
      | some (Json.obj labels) =>
        match jmapGet labels "alertname" with
        | some (Json.str s) => s
        | _ => alertname
      | _ => alertname
  else alertname

/-- Go `strings.ReplaceAll key "_" " "` followed by upper-casing the
first character (ASCII), as done for annotation keys. -/
def formatAnnotationKey (key : String) : String :=
  let k := String.mk (key.data.map (fun c => if c == '_' then ' ' else c))
  match k.data with
  | [] => k
  | c :: rest => String.mk (Char.toUpper c :: rest)

/-- The description/summary line plus the remaining annotation lines of
the enhanced modern formatter, iterated in map order. -/
def amAnnotationLines (annotations : List (String × Json)) : String :=
  let descLine :=
    match jmapGet annotations "description" with
    | some (Json.str s) => if s != "" then "\n• *Description:* " ++ s else ""
    | some _ => ""
    | none =>
      match jmapGet annotations "summary" with
      | some (Json.str s) => if s != "" then "\n• *Description:* " ++ s else ""
      | _ => ""
  annotations.foldl
    (fun acc p =>
      if p.1 == "description" || p.1 == "summary" then acc
      else
        match p.2 with
        | Json.str v => if v != "" then acc ++ "\n• *" ++ formatAnnotationKey p.1 ++ ":* " ++ v else acc
        | _ => acc)
    descLine

/-- A string-valued key of the first alert, rendered only when nonempty. -/
def amFirstAlertStr (w : AMWebhook) (key : String) : String :=
  match w.Alerts with
  | [] => ""
  | a :: _ =>
    match jmapGet a key with
    | some (Json.str s) => s
    | _ => ""

/-- `formatEnhancedAlertMessage` from the SQS adapter. -/
def formatEnhancedAlertMessage (w : AMWebhook) : String :=
  let emoji :=
    match toUpperStr w.Status with
    | "FIRING" => "🚨"
    | "RESOLVED" => "✅"
    | _ => "📊"
  let stateColor :=
    match toUpperStr w.Status with
    | "FIRING" => "`🔴 FIRING`"
    | "RESOLVED" => "`🟢 RESOLVED`"
    | _ => "`" ++ w.Status ++ "`"
  let message := emoji ++ " *Grafana Alert: " ++ amAlertname w ++ "*" ++
    "\n• *State:* " ++ stateColor
  let message :=
    match w.Alerts with
    | [] => message
    | a :: _ =>
      match jmapGet a "annotations" with
      | some (Json.obj annotations) => message ++ amAnnotationLines annotations
      | _ => message
  let valueString := amFirstAlertStr w "valueString"
  let message :=
    if valueString != "" then message ++ "\n• *ValueString:* " ++ valueString else message
  let silenceURL := amFirstAlertStr w "silenceURL"
  let message :=
    if silenceURL != "" then message ++ "\n• *Silence:* <" ++ silenceURL ++ "|Silence Alert>"
    else message
  let generatorURL := amFirstAlertStr w "generatorURL"
  let message :=
    if generatorURL != "" then
      message ++ "\n• *Dashboard:* <" ++ generatorURL ++ "|View Alert Rule>"
    else message
  let dashboardURL := amFirstAlertStr w "dashboardURL"
  if dashboardURL != "" && dashboardURL != generatorURL then
    message ++ "\n• *Dashboard:* <" ++ dashboardURL ++ "|View Dashboard>"
  else message

/-- `formatBasicAlertMessage` from the SQS adapter. -/
def formatBasicAlertMessage (w : AMWebhook) : String :=
  let emoji :=
    match toUpperStr w.Status with
    | "FIRING" => "🚨"
    | "RESOLVED" => "✅"
    | _ => "📊"
  let stateColor :=
    match toUpperStr w.Status with
    | "FIRING" => "`🔴 FIRING`"
    | "RESOLVED" => "`🟢 RESOLVED`"
    | _ => "`" ++ w.Status ++ "`"
  let message := emoji ++ " *Grafana Alert: " ++ amAlertname w ++ "*" ++
    "\n• *State:* " ++ stateColor
  let message :=
    match w.Alerts with
    | [] => message
    | a :: _ =>
      match jmapGet a "annotations" with
      | some (Json.obj annotations) =>
        (match jmapGet annotations "description" with
         | some (Json.str s) => if s != "" then message ++ "\n• *Description:* " ++ s else message
         | some _ => message
         | none =>
           match jmapGet annotations "summary" with
           | some (Json.str s) => if s != "" then message ++ "\n• *Description:* " ++ s else message
           | _ => message)
      | _ => message
  let generatorURL := amFirstAlertStr w "generatorURL"
  if generatorURL != "" then
    message ++ "\n• *Dashboard:* <" ++ generatorURL ++ "|View Alert Rule>"
  else message

/-- `formatAlertmanagerSlackMessage` from the SQS adapter: the enhanced
rendering when nonempty, else the basic rendering. -/
def formatAlertmanagerSlackMessage (w : AMWebhook) : String :=
  let enhancedMessage := formatEnhancedAlertMessage w
  if enhancedMessage != "" then enhancedMessage else formatBasicAlertMessage w

/-- `adaptAlertmanagerWebhook` from the SQS adapter (it never fails). -/
def adaptAlertmanagerWebhook (w : AMWebhook)
    (channels alarmChannels : List (String × String)) : AlertMessage :=
  let priority := amPriority w
  let alertname := mapGet w.CommonLabels "alertname"
  let channel0 := mapGet alarmChannels alertname
  let channel :=
    if channel0 == "" then
      let c := mapGet channels priority
      if c == "" then mapGet channels "default" else c
    else channel0
  { Message := formatAlertmanagerSlackMessage w
    Priority := priority
    Channel := channel }

/-- The legacy routing arm of `AdaptGrafanaWebhook`. -/
def adaptLegacyGrafana (grafanaAlert : GrafanaWebhook)
    (channels alarmChannels : List (String × String)) : AlertMessage :=
  let channel0 := mapGet alarmChannels grafanaAlert.RuleName
  let channel :=
    if channel0 == "" then
      let c := mapGet channels (determineGrafanaPriority grafanaAlert)
      if c == "" then mapGet channels "default" else c
    else channel0
  { Message := formatGrafanaSlackMessage grafanaAlert
    Priority := determineGrafanaPriority grafanaAlert
    Channel := channel }

/-- `AdaptGrafanaWebhook` from the SQS adapter: the modern arm when the
Alertmanager decode succeeds with a non-empty alert list, else the legacy
arm, whose decode failure is the only failure. -/
def AdaptGrafanaWebhook (parseJson : String → Option Json) (body : String)
    (channels alarmChannels : List (String × String)) : Except String AlertMessage :=
  match parseJson body with
  | none => Except.error "failed to unmarshal Grafana webhook: invalid JSON"
  | some j =>
    match unmarshalAMWebhook j with
    | Except.ok am =>
      if am.Alerts.length > 0 then
        Except.ok (adaptAlertmanagerWebhook am channels alarmChannels)
      else
        match unmarshalGrafanaWebhook j with
        | Except.error e => Except.error ("failed to unmarshal Grafana webhook: " ++ e)
        | Except.ok g => Except.ok (adaptLegacyGrafana g channels alarmChannels)
    | Except.error _ =>
      match unmarshalGrafanaWebhook j with
      | Except.error e => Except.error ("failed to unmarshal Grafana webhook: " ++ e)
      | Except.ok g => Except.ok (adaptLegacyGrafana g channels alarmChannels)

/-- One received SQS message (body and receipt handle). -/
structure SQSMessage where
  Body : String
  ReceiptHandle : String
deriving DecidableEq

/-- Observable queue-side events of one pass over a received batch:
the handler call on the i-th message and the delete acknowledgment. -/
inductive PollEvent where
  | handleMsg (idx : Nat) (ok : Bool)
  | deleteMsg (idx : Nat)
deriving DecidableEq

/-- The per-message body of `Poll`'s batch loop, with `i` the index of
the first remaining message: call the handler, delete on success only. -/
def pollGo (handler : String → Except String Unit) (i : Nat) :
    List SQSMessage → List PollEvent
  | [] => []
  | msg :: rest =>
    (match handler msg.Body with
     | Except.ok _ => [PollEvent.handleMsg i true, PollEvent.deleteMsg i]
     | Except.error _ => [PollEvent.handleMsg i false]) ++ pollGo handler (i + 1) rest

/-- One polling step of `Poll`: process the received batch in order. -/
def pollStep (handler : String → Except String Unit) (msgs : List SQSMessage) :
    List PollEvent :=
  pollGo handler 0 msgs

/-- Whether the handler succeeds on a body. -/
def handlerOk (handler : String → Except String Unit) (body : String) : Bool :=
  match handler body with
  | Except.ok _ => true
  | Except.error _ => false

/-- `verifySlackRequest` from the HTTP server: reject on a missing
header, an unparseable timestamp, or `now − ts > 300`; else compare the
received signature with the HMAC over `v0:timestamp:body`.  The keyed
hash is a parameter (`hmacHex secret message` stands for the
hex-encoded HMAC-SHA256). -/
def verifySlackRequest (hmacHex : String → String → String) (signingSecret : String)
    (nowUnix : Int) (timestamp signature body : String) : Bool :=
  if timestamp == "" || signature == "" then false
  else
    match goParseInt64 timestamp with
    | none => false
    | some ts =>
      let timeDiff := nowUnix - ts
      if timeDiff > 300 then false
      else
        let baseString := "v0:" ++ timestamp ++ ":" ++ body
        let expectedSignature := "v0=" ++ hmacHex signingSecret baseString
        signature == expectedSignature

/-- Alert information extracted from a rendered message text. -/
structure AlertInfo where
  Name : String
  Description : String
deriving DecidableEq

/-- Leftmost regex match of `lit` followed by a nonempty capture of
characters outside `stop` (the shape of every pattern in the server:
a literal prefix and one `[^...]+` capture group). -/
def captureAfter (lit : List Char) (stop : List Char) : List Char → Option (List Char)
  | [] => none
  | c :: rest =>
    if lit.isPrefixOf (c :: rest) then
      let tail := (c :: rest).drop lit.length
      let cap := tail.takeWhile (fun ch => !stop.contains ch)
      if cap.isEmpty then captureAfter lit stop rest else some cap
    else captureAfter lit stop rest

/-- String wrapper over `captureAfter`. -/
def goRegexCapture (text lit : String) (stops : List Char) : Option String :=
  (captureAfter lit.data stops text.data).map String.mk

/-- `extractAlertInfo` from the HTTP server: the modern-webhook marker is
checked first, then the cloud-alarm marker; names stop at `*` or a
newline, descriptions and reasons at a newline; captures are trimmed. -/
def extractAlertInfo (text : String) : AlertInfo :=
  if goContains text "Grafana Alert:" then
    let name :=
      match goRegexCapture text "Grafana Alert: " ['*', '\n'] with
      | some m => goTrimSpace m
      | none => ""
    let desc :=
      match goRegexCapture text "• *Description:* " ['\n'] with
      | some m => goTrimSpace m
      | none => ""
    ⟨name, desc⟩
  else if goContains text "CloudWatch Alarm:" then
    let name :=
      match goRegexCapture text "CloudWatch Alarm: " ['*', '\n'] with
      | some m => goTrimSpace m
      | none => ""
    let desc :=
      match goRegexCapture text "• *Reason:* " ['\n'] with
      | some m => goTrimSpace m
      | none => ""
    ⟨name, desc⟩
  else ⟨"", ""⟩

/-- One block of the interactive payload's original message. -/
structure SlackBlock where
  type : String
  text : String
deriving DecidableEq

/-- The block-fallback loop of `handleInteractive`: scan section blocks,
keeping the last extraction, stopping at the first with a name. -/
def resolveFromBlocks (current : AlertInfo) : List SlackBlock → AlertInfo
  | [] => current
  | b :: rest =>
    if b.type == "section" then
      let info := extractAlertInfo b.text
      if info.Name != "" then info else resolveFromBlocks info rest
    else resolveFromBlocks current rest

/-- Alert info as resolved by `handleInteractive`: the message text
first, the section blocks only when the text yields no name. -/
def alertInfoFor (text : String) (blocks : List SlackBlock) : AlertInfo :=
  let info := extractAlertInfo text
  if info.Name == "" then resolveFromBlocks info blocks else info

/-- The outcome text computed by `handleInteractive`'s action switch. -/
def responseTextFor (actionType alertID user text : String)
    (blocks : List SlackBlock) : String :=
  let alertInfo := alertInfoFor text blocks
  match actionType with
  | "acknowledge" =>
    if alertInfo.Name != "" then
      let responseText := "✅ **Alert '" ++ alertInfo.Name ++ "' acknowledged by " ++ user ++ "**"
      let responseText :=
        if alertInfo.Description != "" then
          responseText ++ "\n• *Description:* " ++ alertInfo.Description
        else responseText
      responseText ++ "\n\n_This alert is now being handled._"
    else
      "✅ **Alert " ++ alertID ++ " acknowledged by " ++ user ++
        "**\n\n_This alert is now being handled._"
  | "dismiss" =>
    if alertInfo.Name != "" then
      let responseText := "❌ **Alert '" ++ alertInfo.Name ++ "' dismissed by " ++ user ++ "**"
      let responseText :=
        if alertInfo.Description != "" then
          responseText ++ "\n• *Description:* " ++ alertInfo.Description
        else responseText
      responseText ++ "\n\n_This alert has been dismissed and will not be actioned._"
    else
      "❌ **Alert " ++ alertID ++ " dismissed by " ++ user ++
        "**\n\n_This alert has been dismissed and will not be actioned._"
  | _ => "Unknown action: " ++ actionType

/-- The outbound Slack message descriptor built by `NotifyWithButtons`:
the fallback text, the header section text, and the correlation value
carried by the acknowledge and dismiss buttons. -/
structure ButtonsMessage where
  text : String
  headerText : String
  ackValue : String
  dismissValue : String
deriving DecidableEq

/-- `NotifyWithButtons` from the notifier: an empty `alertID` becomes
`alert_` followed by the Go byte length of the message. -/
def NotifyWithButtons (message alertID : String) : ButtonsMessage :=
  let alertID := if alertID == "" then "alert_" ++ toString (goLen message) else alertID
  { text := message
    headerText := "🚨 *Alert*\n" ++ message
    ackValue := alertID
    dismissValue := alertID }

/-- `Notify` from the notifier delegates with an empty correlation id. -/
def Notify (message : String) : ButtonsMessage := NotifyWithButtons message ""

/-- Whether a Go call returning `(T, error)` succeeded (`err == nil`). -/
def exceptIsOk {ε α : Type} : Except ε α → Bool
  | Except.ok _ => true
  | Except.error _ => false

/-- An SNS body whose inner message is the empty JSON object, and the
parse results Go's JSON parser produces for the two strings involved. -/
def c2body : String := "\x7b\"Message\":\"\x7b\x7d\"\x7d"

/-- The inner message of `c2body`: an empty JSON object. -/
def c2msg : String := "\x7b\x7d"

/-- Concrete JSON parses for the C2 inputs, consistent with `encoding/json`. -/
def c2parse : String → Option Json := fun s =>
  if s == c2body then some (Json.obj [("Message", Json.str c2msg)])
  else if s == c2msg then some (Json.obj []) else none

/-- An SNS body carrying an alarm named `orders-alarm` and nothing else. -/
def c3msg : String := "\x7b\"AlarmName\":\"orders-alarm\"\x7d"

/-- The envelope body embedding `c3msg` (quotes escaped as in JSON). -/
def c3body : String := "\x7b\"Message\":\"\x7b\\\"AlarmName\\\":\\\"orders-alarm\\\"\x7d\"\x7d"

/-- Concrete JSON parses for the C3 inputs, consistent with `encoding/json`. -/
def c3parse : String → Option Json := fun s =>
  if s == c3body then some (Json.obj [("Message", Json.str c3msg)])
  else if s == c3msg then some (Json.obj [("AlarmName", Json.str "orders-alarm")]) else none

/-- The decoded `c3msg` alarm. -/
def c3alarm : CloudWatchAlarm := { CloudWatchAlarm.zero with AlarmName := "orders-alarm" }

/-- A modern webhook whose common labels name `orders-alarm` with a `P0`
channel tag, for exercising the explicit-mapping precedence. -/
def c3am : AMWebhook :=
  { Alerts := [[("labels", Json.obj [("alertname", Json.str "orders-alarm")])]]
    CommonLabels := [("alertname", "orders-alarm"), ("channel", "P0")]
    Status := "firing"
    Title := ""
    Message := "" }

/-- The first alert of `c4am`: a firing no-data alert tagged `P2`. -/
def c4alert : List (String × Json) :=
  [("labels", Json.obj [("alertname", Json.str "NoData watchdog"), ("channel", Json.str "P2")])]

/-- A firing modern webhook whose only alert is `c4alert` and whose
channel tag requests `P2`. -/
def c4am : AMWebhook :=
  { Alerts := [c4alert]
    CommonLabels := [("channel", "P2")]
    Status := "firing"
    Title := ""
    Message := "" }

/-- A legacy alert carrying an unrecognized channel tag and a rule name
containing `critical`. -/
def c5alert : GrafanaWebhook :=
  { GrafanaWebhook.zero with RuleName := "critical-db-check", Tags := [("channel", "URGENT")] }

/-- A resolved modern webhook whose only channel tag is unrecognized. -/
def c5am : AMWebhook :=
  { Alerts := [[("labels", Json.obj [("channel", Json.str "URGENT")])]]
    CommonLabels := []
    Status := "resolved"
    Title := ""
    Message := "" }

/-- Two legacy alerts equal as map values but with opposite tag order. -/
def c6alert1 : GrafanaWebhook :=
  { GrafanaWebhook.zero with
    State := "alerting", Title := "cache hit ratio", Tags := [("team", "sre"), ("env", "prod")] }

/-- `c6alert1` with its tag entries listed in the other order. -/
def c6alert2 : GrafanaWebhook :=
  { GrafanaWebhook.zero with
    State := "alerting", Title := "cache hit ratio", Tags := [("env", "prod"), ("team", "sre")] }

/-- A rendered message containing both webhook markers: extraction takes
the modern branch and loses the cloud-alarm name. -/
def c8text : String :=
  "Grafana Alert: other\nCloudWatch Alarm: disk-full\n• *Reason:* disk 98 percent full"

/-- A cloud-alarm rendering of a `disk-full` alarm with a reason line. -/
def c8goodText : String :=
  "🚨 *CloudWatch Alarm: disk-full*\n• *Reason:* disk 98 percent full"

/-- A JSON object whose `state` field has the wrong type for the legacy shape. -/
def c9body : String := "\x7b\"state\":5\x7d"

/-- Concrete JSON parse for the C9 input, consistent with `encoding/json`. -/
def c9parse : String → Option Json := fun s =>
  if s == c9body then some (Json.obj [("state", Json.num 5)]) else none

/-- A JSON object with no alerts, no ruleId and no state field. -/
def c9okBody : String := "\x7b\"orgId\":1\x7d"

/-- Concrete JSON parse for the C9 witness input. -/
def c9okParse : String → Option Json := fun s =>
  if s == c9okBody then some (Json.obj [("orgId", Json.num 1)]) else none

/-- The empty pattern occurs in every string. -/
theorem containsSub_nil (s : List Char) : containsSub s [] = true := by
  cases s <;> simp [containsSub, List.isPrefixOf]

/-- A prefix test survives extending the searched list on the right. -/
theorem isPrefixOf_append_ext (l s t : List Char) (h : l.isPrefixOf s = true) :
    l.isPrefixOf (s ++ t) = true := by
  induction l generalizing s with
  | nil => simp [List.isPrefixOf]
  | cons a as ih =>
    cases s with
    | nil => simp [List.isPrefixOf] at h
    | cons b bs =>
      simp only [List.isPrefixOf, Bool.and_eq_true] at h
      simp only [List.cons_append, List.isPrefixOf, Bool.and_eq_true]
      exact ⟨h.1, ih bs h.2⟩

/-- A list is a prefix of itself extended on the right. -/
theorem isPrefixOf_append_self (l t : List Char) : l.isPrefixOf (l ++ t) = true := by
  induction l with
  | nil => simp [List.isPrefixOf]
  | cons a as ih => simp [List.isPrefixOf, ih]

/-- The pattern occurs at the head of `pat ++ t`. -/
theorem containsSub_here (pat t : List Char) : containsSub (pat ++ t) pat = true := by
  cases pat with
  | nil => simp [containsSub_nil t]
  | cons c cs =>
    simp only [List.cons_append, containsSub, Bool.or_eq_true]
    exact Or.inl (show (c :: cs).isPrefixOf ((c :: cs) ++ t) = true from
      isPrefixOf_append_self (c :: cs) t)

/-- An occurrence survives prepending one character. -/
theorem containsSub_cons (c : Char) (s pat : List Char) (h : containsSub s pat = true) :
    containsSub (c :: s) pat = true := by
  have hu : containsSub (c :: s) pat = (pat.isPrefixOf (c :: s) || containsSub s pat) := by
    cases s <;> rfl
  rw [hu, h, Bool.or_true]

/-- An occurrence in the right part survives the append. -/
theorem containsSub_append_right (a b pat : List Char) (h : containsSub b pat = true) :
    containsSub (a ++ b) pat = true := by
  induction a with
  | nil => simpa using h
  | cons c as ih => exact containsSub_cons c (as ++ b) pat ih

/-- An occurrence in the left part survives the append. -/
theorem containsSub_append_left (a b pat : List Char) (h : containsSub a pat = true) :
    containsSub (a ++ b) pat = true := by
  induction a with
  | nil =>
    cases pat with
    | nil => simpa using containsSub_nil b
    | cons p ps => simp [containsSub, List.isPrefixOf] at h
  | cons c as ih =>
    simp only [containsSub, Bool.or_eq_true] at h
    rcases h with h | h
    · simp only [List.cons_append, containsSub, Bool.or_eq_true]
      exact Or.inl (isPrefixOf_append_ext _ _ _ h)
    · exact containsSub_cons c (as ++ b) pat (ih h)

/-- No delete event for an index below the numbering start. -/
theorem pollGo_count_lt (handler : String → Except String Unit) (start k : Nat)
    (msgs : List SQSMessage) (h : k < start) :
    (pollGo handler start msgs).count (PollEvent.deleteMsg k) = 0 := by
  induction msgs generalizing start with
  | nil => rfl
  | cons m rest ih =>
    have hne : k ≠ start := Nat.ne_of_lt h
    cases hm : handler m.Body with
    | ok u =>
      simp [pollGo, hm, List.count_append, List.count_cons, hne,
        ih (start + 1) (Nat.lt_succ_of_lt h)]
    | error e =>
      simp [pollGo, hm, List.count_append, List.count_cons,
        ih (start + 1) (Nat.lt_succ_of_lt h)]

/-- Delete-event count for the k-th message of a batch numbered from `start`. -/
theorem pollGo_count (handler : String → Except String Unit) (start k : Nat)
    (msgs : List SQSMessage) :
    (pollGo handler start msgs).count (PollEvent.deleteMsg (start + k)) =
      (match msgs.get? k with
       | some m => if handlerOk handler m.Body then 1 else 0
       | none => 0) := by
  induction msgs generalizing start k with
  | nil => simp [pollGo]
  | cons m rest ih =>
    cases k with
    | zero =>
      have htail : (pollGo handler (start + 1) rest).count (PollEvent.deleteMsg start) = 0 :=
        pollGo_count_lt handler (start + 1) start rest (Nat.lt_succ_self start)
      cases hm : handler m.Body with
      | ok u =>
        simp [pollGo, hm, List.count_append, List.count_cons, htail, handlerOk]
      | error e =>
        simp [pollGo, hm, List.count_append, List.count_cons, htail, handlerOk]
    | succ j =>
      have hidx : start + (j + 1) = (start + 1) + j := by omega
      have hne : start + (j + 1) ≠ start := by omega
      cases hm : handler m.Body with
      | ok u =>
        simp only [pollGo, hm, List.count_append, List.count_cons, hidx, ih (start + 1) j]
        simp [hne.symm, ← hidx]
      | error e =>
        simp only [pollGo, hm, List.count_append, List.count_cons, hidx, ih (start + 1) j]
        simp [hne.symm, ← hidx]

/-- C7: in every polling step the queue delete is invoked exactly once
for each message whose handler returns success and never for a message
whose handler returns an error. -/
theorem poll_deletes_iff_handler_ok (handler : String → Except String Unit)
    (msgs : List SQSMessage) (i : Nat) (h : i < msgs.length) :
    (pollStep handler msgs).count (PollEvent.deleteMsg i) =
      if handlerOk handler (msgs.get ⟨i, h⟩).Body then 1 else 0 := by
  have hc := pollGo_count handler 0 i msgs
  rw [Nat.zero_add] at hc
  unfold pollStep
  rw [hc, List.get?_eq_get h]

/-- C7 witness: a two-message batch with one success and one failure. -/
theorem poll_deletes_iff_handler_ok_witness :
    (pollStep (fun b => if b == "good" then Except.ok () else Except.error "boom")
        [⟨"good", "r1"⟩, ⟨"bad", "r2"⟩]).count (PollEvent.deleteMsg 0) = 1 ∧
    (pollStep (fun b => if b == "good" then Except.ok () else Except.error "boom")
        [⟨"good", "r1"⟩, ⟨"bad", "r2"⟩]).count (PollEvent.deleteMsg 1) = 0 := by
  constructor
  · exact (poll_deletes_iff_handler_ok
      (fun b => if b == "good" then Except.ok () else Except.error "boom")
      [⟨"good", "r1"⟩, ⟨"bad", "r2"⟩] 0 (by decide)).trans (by decide)
  · exact (poll_deletes_iff_handler_ok
      (fun b => if b == "good" then Except.ok () else Except.error "boom")
      [⟨"good", "r1"⟩, ⟨"bad", "r2"⟩] 1 (by decide)).trans (by decide)

/-- C1 counterexample: a request whose timestamp is 301 seconds in the
future passes the staleness check and is accepted when its signature
matches, so the verifier does not reject on `|now − timestamp| > 300`. -/
theorem verify_accepts_future_timestamp :
    verifySlackRequest (fun _ _ => "h") "secret" 1000 "1301" "v0=h" "payload" = true ∧
      (1301 - 1000 : Int) > 300 := by
  constructor
  · rfl
  · decide

/-- C1 amended: the verifier rejects whenever `now − timestamp` exceeds
300 seconds (a stale past timestamp); the window check is one-sided. -/
theorem verify_rejects_only_stale_past
    (hmacHex : String → String → String) (signingSecret : String)
    (nowUnix : Int) (timestamp signature body : String) (ts : Int)
    (hts : goParseInt64 timestamp = some ts) (hstale : nowUnix - ts > 300) :
    verifySlackRequest hmacHex signingSecret nowUnix timestamp signature body = false := by
  simp only [verifySlackRequest, hts]
  split
  · rfl
  · simp [hstale]

/-- C1 witness: a timestamp 301 seconds in the past is rejected. -/
theorem verify_rejects_only_stale_past_witness :
    verifySlackRequest (fun _ _ => "h") "secret" 1000 "699" "v0=h" "payload" = false :=
  verify_rejects_only_stale_past (fun _ _ => "h") "secret" 1000 "699" "v0=h" "payload" 699
    (by decide) (by decide)

/-- C10 counterexample: the default correlation value uses the Go byte
length of the message, not its character length. -/
theorem correlation_uses_byte_length :
    (Notify "🚨").ackValue = "alert_4" ∧ "🚨".length = 1 ∧
      (Notify "🚨").ackValue ≠ "alert_" ++ toString ("🚨".length) := by
  refine ⟨rfl, by decide, by decide⟩

/-- C10 amended: without an explicit correlation id the buttons carry
`alert_` followed by the UTF-8 byte length of the message text, so any
two messages of equal byte length share the correlation identifier. -/
theorem correlation_id_byte_length (m1 m2 : String) (h : goLen m1 = goLen m2) :
    (NotifyWithButtons m1 "").ackValue = "alert_" ++ toString (goLen m1) ∧
      (NotifyWithButtons m1 "").ackValue = (NotifyWithButtons m2 "").ackValue := by
  constructor
  · rfl
  · simp [NotifyWithButtons, h]

/-- C10 witness: two distinct messages of byte length 2 collide. -/
theorem correlation_id_byte_length_witness :
    (NotifyWithButtons "ab" "").ackValue = "alert_" ++ toString (goLen "ab") ∧
      (NotifyWithButtons "ab" "").ackValue = (NotifyWithButtons "cd" "").ackValue :=
  correlation_id_byte_length "ab" "cd" (by decide)

/-- C2 counterexample: a queue payload whose inner message is an empty
JSON object — `AlarmName` and `NewStateValue` both absent — is adapted
successfully into an outbound message, not rejected. -/
theorem adapt_sqs_missing_fields_succeeds :
    jField ([] : List (String × Json)) "AlarmName" = none ∧
      jField ([] : List (String × Json)) "NewStateValue" = none ∧
      AdaptSQSMessageWithRouting c2parse c2body [] [] =
        Except.ok
          { Message := formatSlackMessage CloudWatchAlarm.zero
            Priority := "P2"
            Channel := "" } :=
  ⟨rfl, rfl, rfl⟩

/-- C2 amended: queue-path adaptation succeeds whenever the body and the
inner message decode (missing fields merely become zero values); it
fails only on a JSON decoding error. -/
theorem adapt_sqs_ok_of_decode (parseJson : String → Option Json) (body : String)
    (channels alarmChannels : List (String × String)) (j jm : Json) (env : SNSEnvelope)
    (alarm : CloudWatchAlarm)
    (h1 : parseJson body = some j) (h2 : unmarshalSNSEnvelope j = Except.ok env)
    (h3 : parseJson env.Message = some jm)
    (h4 : unmarshalCloudWatchAlarm jm = Except.ok alarm) :
    AdaptSQSMessageWithRouting parseJson body channels alarmChannels =
      Except.ok
        { Message := formatSlackMessage alarm
          Priority := determinePriority alarm
          Channel :=
            if mapGet alarmChannels alarm.AlarmName == "" then
              if mapGet channels (determinePriority alarm) == "" then mapGet channels "default"
              else mapGet channels (determinePriority alarm)
            else mapGet alarmChannels alarm.AlarmName } := by
  simp only [AdaptSQSMessageWithRouting, h1, h2, h3, h4]

/-- C2 witness: the decode hypotheses hold for the empty-object payload. -/
theorem adapt_sqs_ok_of_decode_witness :
    AdaptSQSMessageWithRouting c2parse c2body [("P2", "#p2")] [] =
      Except.ok
        { Message := formatSlackMessage CloudWatchAlarm.zero
          Priority := "P2"
          Channel := "#p2" } :=
  (adapt_sqs_ok_of_decode c2parse c2body [("P2", "#p2")] []
    (Json.obj [("Message", Json.str c2msg)]) (Json.obj []) ⟨c2msg, ""⟩ CloudWatchAlarm.zero
    rfl rfl rfl rfl).trans rfl

/-- C3: an explicit alert-to-channel entry with a non-empty channel is
the resolved destination on both the queue path and the modern webhook
path, regardless of the computed priority. -/
theorem explicit_mapping_wins (parseJson : String → Option Json) (body : String)
    (channels alarmChannels : List (String × String)) (j jm : Json) (env : SNSEnvelope)
    (alarm : CloudWatchAlarm) (w : AMWebhook)
    (h1 : parseJson body = some j) (h2 : unmarshalSNSEnvelope j = Except.ok env)
    (h3 : parseJson env.Message = some jm)
    (h4 : unmarshalCloudWatchAlarm jm = Except.ok alarm)
    (h5 : mapGet alarmChannels alarm.AlarmName ≠ "")
    (h6 : mapGet alarmChannels (mapGet w.CommonLabels "alertname") ≠ "") :
    AdaptSQSMessageWithRouting parseJson body channels alarmChannels =
      Except.ok
        { Message := formatSlackMessage alarm
          Priority := determinePriority alarm
          Channel := mapGet alarmChannels alarm.AlarmName } ∧
    (adaptAlertmanagerWebhook w channels alarmChannels).Channel =
      mapGet alarmChannels (mapGet w.CommonLabels "alertname") := by
  have h5' : (mapGet alarmChannels alarm.AlarmName == "") = false :=
    beq_eq_false_iff_ne.mpr h5
  have h6' : (mapGet alarmChannels (mapGet w.CommonLabels "alertname") == "") = false :=
    beq_eq_false_iff_ne.mpr h6
  constructor
  · simp only [AdaptSQSMessageWithRouting, h1, h2, h3, h4, h5', Bool.false_eq_true, if_false]
  · simp only [adaptAlertmanagerWebhook, h6', Bool.false_eq_true, if_false]

/-- C3 witness: an `orders-alarm` mapping beats priority routing on both paths. -/
theorem explicit_mapping_wins_witness :
    AdaptSQSMessageWithRouting c3parse c3body [("P0", "#p0"), ("P2", "#p2")]
        [("orders-alarm", "#orders")] =
      Except.ok
        { Message := formatSlackMessage c3alarm
          Priority := determinePriority c3alarm
          Channel := "#orders" } ∧
    (adaptAlertmanagerWebhook c3am [("P0", "#p0"), ("P2", "#p2")]
        [("orders-alarm", "#orders")]).Channel = "#orders" := by
  have h := explicit_mapping_wins c3parse c3body [("P0", "#p0"), ("P2", "#p2")]
    [("orders-alarm", "#orders")]
    (Json.obj [("Message", Json.str c3msg)]) (Json.obj [("AlarmName", Json.str "orders-alarm")])
    ⟨c3msg, ""⟩ c3alarm c3am rfl rfl rfl rfl (by decide) (by decide)
  exact ⟨h.1.trans rfl, h.2.trans rfl⟩

/-- C4: on a firing modern webhook, any alert whose name or description
carries a no-data indicator forces the computed priority to P1,
whatever the channel tag requests. -/
theorem nodata_firing_forces_p1 (w : AMWebhook)
    (channels alarmChannels : List (String × String)) (a : List (String × Json))
    (hmem : a ∈ w.Alerts) (hnd : alertNoData a = true) (hst : w.Status = "firing") :
    (adaptAlertmanagerWebhook w channels alarmChannels).Priority = "P1" := by
  have hfired : amNoDataFired w = true := by
    unfold amNoDataFired
    rw [hst]
    have h1 : (toUpperStr "firing" == "FIRING") = true := by decide
    have h2 : decide (0 < w.Alerts.length) = true := by
      simp only [decide_eq_true_eq]
      exact List.length_pos.mpr (List.ne_nil_of_mem hmem)
    have h3 : w.Alerts.any alertNoData = true := List.any_eq_true.mpr ⟨a, hmem, hnd⟩
    rw [h1, h2, h3]
    rfl
  simp [adaptAlertmanagerWebhook, amPriority, hfired]

/-- C4 witness: a firing webhook with a `NoData watchdog` alert and an
explicit `P2` channel tag still classifies as P1. -/
theorem nodata_firing_forces_p1_witness :
    (adaptAlertmanagerWebhook c4am [] []).Priority = "P1" ∧ amChannelTag c4am = "P2" := by
  constructor
  · exact nodata_firing_forces_p1 c4am [] [] c4alert
      (show c4alert ∈ [c4alert] from List.mem_singleton_self c4alert) (by decide) rfl
  · decide

/-- The legacy heuristic only ever yields P0, P1 or P2. -/
theorem grafanaHeuristicPriority_mem (alert : GrafanaWebhook) :
    grafanaHeuristicPriority alert ∈ (["P0", "P1", "P2"] : List String) := by
  simp only [grafanaHeuristicPriority]
  repeat' split
  all_goals decide

/-- C5 counterexample: a legacy alert tagged `channel=URGENT` (not a
recognized priority) is not folded to P2 — the classifier falls through
to the heuristics, which here yield P0. -/
theorem legacy_unrecognized_tag_not_folded :
    mapGetOpt c5alert.Tags "channel" = some "URGENT" ∧
      toUpperStr "URGENT" ≠ "P0" ∧ toUpperStr "URGENT" ≠ "P1" ∧ toUpperStr "URGENT" ≠ "P2" ∧
      determineGrafanaPriority c5alert = "P0" ∧ ("P0" : String) ≠ "P2" := by
  decide

/-- C5 amended: both classifiers only ever produce P0, P1 or P2; the
modern adapter folds an unrecognized channel-tag value to P2, while the
legacy classifier ignores it and falls through to its heuristics. -/
theorem priority_domain_and_fold :
    (∀ alert : GrafanaWebhook,
      determineGrafanaPriority alert ∈ (["P0", "P1", "P2"] : List String)) ∧
    (∀ (w : AMWebhook) (channels alarmChannels : List (String × String)),
      (adaptAlertmanagerWebhook w channels alarmChannels).Priority ∈
        (["P0", "P1", "P2"] : List String)) ∧
    (∀ (alert : GrafanaWebhook) (t : String), mapGetOpt alert.Tags "channel" = some t →
      toUpperStr t ≠ "P0" → toUpperStr t ≠ "P1" → toUpperStr t ≠ "P2" →
      determineGrafanaPriority alert = grafanaHeuristicPriority alert) ∧
    (∀ (w : AMWebhook) (channels alarmChannels : List (String × String)),
      amNoDataFired w = false → amChannelTag w ≠ "" →
      toUpperStr (amChannelTag w) ≠ "P0" → toUpperStr (amChannelTag w) ≠ "P1" →
      toUpperStr (amChannelTag w) ≠ "P2" →
      (adaptAlertmanagerWebhook w channels alarmChannels).Priority = "P2") := by
  refine ⟨?_, ?_, ?_, ?_⟩
  · intro alert
    simp only [determineGrafanaPriority]
    split
    · split
      all_goals first
        | decide
        | exact grafanaHeuristicPriority_mem alert
    · exact grafanaHeuristicPriority_mem alert
  · intro w channels alarmChannels
    show amPriority w ∈ (["P0", "P1", "P2"] : List String)
    simp only [amPriority]
    repeat' split
    all_goals decide
  · intro alert t ht h0 h1 h2
    simp only [determineGrafanaPriority, ht]
  · intro w channels alarmChannels hnf hne h0 h1 h2
    have hne' : (amChannelTag w != "") = true := bne_iff_ne.mpr hne
    show amPriority w = "P2"
    simp only [amPriority, hnf, hne', Bool.false_eq_true, if_false, if_true]

/-- C5 witness: the legacy fall-through and the modern fold on concrete inputs. -/
theorem priority_domain_and_fold_witness :
    determineGrafanaPriority c5alert = grafanaHeuristicPriority c5alert ∧
      (adaptAlertmanagerWebhook c5am [] []).Priority = "P2" := by
  constructor
  · exact priority_domain_and_fold.2.2.1 c5alert "URGENT" (by decide) (by decide) (by decide)
      (by decide)
  · exact priority_domain_and_fold.2.2.2 c5am [] [] (by decide) (by decide) (by decide)
      (by decide) (by decide)

/-- Every string contains itself. -/
theorem goContains_self (s : String) : goContains s s = true := by
  have h := containsSub_here s.data []
  rw [List.append_nil] at h
  exact h

/-- Containment in the left operand survives appending. -/
theorem goContains_append_of_left (a b pat : String) (h : goContains a pat = true) :
    goContains (a ++ b) pat = true := by
  unfold goContains at h ⊢
  rw [String.data_append]
  exact containsSub_append_left _ _ _ h

/-- Containment in the right operand survives appending. -/
theorem goContains_append_of_right (a b pat : String) (h : goContains b pat = true) :
    goContains (a ++ b) pat = true := by
  unfold goContains at h ⊢
  rw [String.data_append]
  exact containsSub_append_right _ _ _ h

/-- A prefix of `a` is a prefix of `a ++ b`. -/
theorem isPrefixOf_str_extend (p a b : String) (h : p.data.isPrefixOf a.data = true) :
    p.data.isPrefixOf (a ++ b).data = true := by
  rw [String.data_append]
  exact isPrefixOf_append_ext _ _ _ h

/-- C6 counterexample: two legacy alerts equal in every field and with
tag maps equal as maps (a permutation of entries) render to different
text, so formatting is not a function of the alert value alone. -/
theorem format_depends_on_tag_order :
    c6alert1.Tags.Perm c6alert2.Tags ∧
      c6alert1.DashboardID = c6alert2.DashboardID ∧
      c6alert1.EvalMatches = c6alert2.EvalMatches ∧
      c6alert1.ImageURL = c6alert2.ImageURL ∧
      c6alert1.Message = c6alert2.Message ∧
      c6alert1.OrgID = c6alert2.OrgID ∧
      c6alert1.PanelID = c6alert2.PanelID ∧
      c6alert1.RuleID = c6alert2.RuleID ∧
      c6alert1.RuleName = c6alert2.RuleName ∧
      c6alert1.RuleURL = c6alert2.RuleURL ∧
      c6alert1.State = c6alert2.State ∧
      c6alert1.Title = c6alert2.Title ∧
      formatGrafanaSlackMessage c6alert1 ≠ formatGrafanaSlackMessage c6alert2 := by
  refine ⟨by decide, rfl, rfl, rfl, rfl, rfl, rfl, rfl, rfl, rfl, rfl, rfl, by decide⟩

/-- C6 amended: formatting is a pure function of the in-memory value,
and it is determined by the alert's map contents whenever at most one
tag entry is rendered (here: the tag list has at most one entry, so tag
iteration order cannot vary). -/
theorem format_deterministic_small_tags (g1 g2 : GrafanaWebhook)
    (hperm : g1.Tags.Perm g2.Tags) (hlen : g1.Tags.length ≤ 1)
    (h1 : g1.DashboardID = g2.DashboardID) (h2 : g1.EvalMatches = g2.EvalMatches)
    (h3 : g1.ImageURL = g2.ImageURL) (h4 : g1.Message = g2.Message)
    (h5 : g1.OrgID = g2.OrgID) (h6 : g1.PanelID = g2.PanelID) (h7 : g1.RuleID = g2.RuleID)
    (h8 : g1.RuleName = g2.RuleName) (h9 : g1.RuleURL = g2.RuleURL)
    (h10 : g1.State = g2.State) (h11 : g1.Title = g2.Title) :
    formatGrafanaSlackMessage g1 = formatGrafanaSlackMessage g2 := by
  have htags : g1.Tags = g2.Tags := by
    rcases hg : g1.Tags with _ | ⟨p, rest⟩
    · rw [hg] at hperm
      exact hperm.nil_eq
    · rw [hg] at hperm hlen
      cases rest with
      | cons q qs => simp at hlen
      | nil =>
        have := List.perm_singleton.mp hperm.symm
        rw [this]
  have hg : g1 = g2 := by
    cases g1
    cases g2
    simp_all
  rw [hg]

/-- C6 witness: a one-tag alert renders identically on repetition. -/
theorem format_deterministic_small_tags_witness :
    formatGrafanaSlackMessage { GrafanaWebhook.zero with Tags := [("team", "sre")] } =
      formatGrafanaSlackMessage { GrafanaWebhook.zero with Tags := [("team", "sre")] } :=
  format_deterministic_small_tags
    { GrafanaWebhook.zero with Tags := [("team", "sre")] }
    { GrafanaWebhook.zero with Tags := [("team", "sre")] }
    (List.Perm.refl _) (by decide) rfl rfl rfl rfl rfl rfl rfl rfl rfl rfl rfl

/-- C8 counterexample: a message text that contains
`CloudWatch Alarm: disk-full` and a reason line, but also the modern
marker `Grafana Alert:`, resolves through the modern branch, so the
acknowledge outcome does not contain `disk-full`. -/
theorem ack_grafana_marker_loses_name :
    goContains c8text "CloudWatch Alarm: disk-full" = true ∧
      goContains c8text "• *Reason:* " = true ∧
      goContains (responseTextFor "acknowledge" "id1" "alice" c8text []) "disk-full" = false := by
  refine ⟨by decide, by decide, by decide⟩

/-- C8 amended: whenever the server's extraction resolves the original
message to the alert name `disk-full`, the acknowledge outcome contains
`disk-full`, the acting user's name and the handled marker, and it is
the acknowledged template (so the alert is handled, not dismissed). -/
theorem ack_outcome_of_extracted_name (text alertID user : String) (blocks : List SlackBlock)
    (hname : (alertInfoFor text blocks).Name = "disk-full") :
    goContains (responseTextFor "acknowledge" alertID user text blocks) "disk-full" = true ∧
      goContains (responseTextFor "acknowledge" alertID user text blocks) user = true ∧
      goContains (responseTextFor "acknowledge" alertID user text blocks)
        "_This alert is now being handled._" = true ∧
      ("✅ **Alert 'disk-full' acknowledged by ").data.isPrefixOf
        (responseTextFor "acknowledge" alertID user text blocks).data = true := by
  simp only [responseTextFor, hname]
  cases hd : ((alertInfoFor text blocks).Description != "") with
  | true =>
    have hdn : (("disk-full" : String) != "") = true := by decide
    rw [if_pos hdn, if_pos rfl]
    refine ⟨?_, ?_, ?_, ?_⟩
    · apply goContains_append_of_left
      apply goContains_append_of_left
      apply goContains_append_of_left
      apply goContains_append_of_left
      apply goContains_append_of_left
      decide
    · apply goContains_append_of_left
      apply goContains_append_of_left
      apply goContains_append_of_left
      apply goContains_append_of_left
      apply goContains_append_of_right
      exact goContains_self user
    · apply goContains_append_of_right
      decide
    · apply isPrefixOf_str_extend
      apply isPrefixOf_str_extend
      apply isPrefixOf_str_extend
      apply isPrefixOf_str_extend
      apply isPrefixOf_str_extend
      decide
  | false =>
    have hdn : (("disk-full" : String) != "") = true := by decide
    rw [if_pos hdn, if_neg (by simp)]
    refine ⟨?_, ?_, ?_, ?_⟩
    · apply goContains_append_of_left
      apply goContains_append_of_left
      apply goContains_append_of_left
      decide
    · apply goContains_append_of_left
      apply goContains_append_of_left
      apply goContains_append_of_right
      exact goContains_self user
    · apply goContains_append_of_right
      decide
    · apply isPrefixOf_str_extend
      apply isPrefixOf_str_extend
      apply isPrefixOf_str_extend
      decide

/-- C8 witness: the cloud-alarm rendering of a `disk-full` alarm with a
reason line yields an acknowledge outcome with all required parts. -/
theorem ack_outcome_of_extracted_name_witness :
    goContains (responseTextFor "acknowledge" "id9" "alice" c8goodText []) "disk-full" = true ∧
      goContains (responseTextFor "acknowledge" "id9" "alice" c8goodText []) "alice" = true ∧
      goContains (responseTextFor "acknowledge" "id9" "alice" c8goodText [])
        "_This alert is now being handled._" = true ∧
      ("✅ **Alert 'disk-full' acknowledged by ").data.isPrefixOf
        (responseTextFor "acknowledge" "id9" "alice" c8goodText []).data = true :=
  ack_outcome_of_extracted_name c8goodText "id9" "alice" [] (by decide)

/-- C9 counterexample: `\x7b"state":5\x7d` parses as a JSON object, yet
webhook adaptation fails (the present `state` field has the wrong type
for the legacy shape), so failure is not limited to non-object bodies. -/
theorem webhook_object_with_wrong_type_fails :
    c9parse c9body = some (Json.obj [("state", Json.num 5)]) ∧
      AdaptGrafanaWebhook c9parse c9body [] [] =
        Except.error "failed to unmarshal Grafana webhook: cannot unmarshal field state" :=
  ⟨rfl, rfl⟩

/-- C9 amended: webhook adaptation succeeds whenever the body decodes
into the legacy single-rule shape — in particular for every JSON object
whose present fields are well-typed, with or without alerts, ruleId or
state; it fails only when that decode fails. -/
theorem webhook_adapt_ok_of_legacy_decode (parseJson : String → Option Json) (body : String)
    (channels alarmChannels : List (String × String)) (j : Json) (g : GrafanaWebhook)
    (h1 : parseJson body = some j) (h2 : unmarshalGrafanaWebhook j = Except.ok g) :
    exceptIsOk (AdaptGrafanaWebhook parseJson body channels alarmChannels) = true := by
  simp only [AdaptGrafanaWebhook, h1]
  cases ham : unmarshalAMWebhook j with
  | ok am =>
    by_cases hl : 0 < am.Alerts.length
    · simp [hl, exceptIsOk]
    · simp [hl, h2, exceptIsOk]
  | error e =>
    simp [h2, exceptIsOk]

/-- C9 witness: a JSON object with no alerts, no ruleId and no state
adapts successfully through the legacy path. -/
theorem webhook_adapt_ok_of_legacy_decode_witness :
    exceptIsOk (AdaptGrafanaWebhook c9okParse c9okBody [] []) = true :=
  webhook_adapt_ok_of_legacy_decode c9okParse c9okBody [] []
    (Json.obj [("orgId", Json.num 1)]) { GrafanaWebhook.zero with OrgID := 1 } rfl rfl
